import Mathlib

/-
Verification of the benchmark-runner streaming token extractor
(benchmark_runner/custom_response_handler.py) and the remote progress sink
(benchmark_runner/progress.py).

Shallow embedding conventions:
- A JSON object field that may be absent, null, or a string is modelled as
  Option (Option String): none = key absent, some none = key present with
  null value, some (some s) = key present with string s.
- Python dict.get(key) collapses absent and null to Python None; this is
  Option.join on the model above.
- Python truthiness of a string option: None and the empty string are falsy.
- Times and progress values are rationals (the source uses floats only for
  wall-clock seconds and percentages; all constants involved are exact).
-/

namespace BenchmarkRunner

/-- Result code of add_streaming_line: 1 = token arrived, 0 = no change,
None = stream done. -/
inductive Signal where
  | tokenArrived
  | noChange
  | streamDone
  deriving DecidableEq, Repr

/-- Python dict.get for a field modelled as Option (Option String):
absent and null both give Python None. -/
def pyGet (f : Option (Option String)) : Option String :=
  f.join

/-- Python truthiness of an optional string: None and the empty string are
falsy. -/
def pyTruthyStr (o : Option String) : Bool :=
  match o with
  | none => false
  | some s => s != ""

/-- Python expression a or b or two double quotes, on optional strings: the
first truthy value, else the empty string. -/
def pyOrFragment (a b : Option String) : String :=
  if pyTruthyStr a then a.getD ""
  else if pyTruthyStr b then b.getD ""
  else ""

/-- The delta object of a choice: the content and reasoning_content fields,
each possibly absent, null, or a string. -/
structure Delta where
  content : Option (Option String) := none
  reasoning_content : Option (Option String) := none
  deriving DecidableEq, Repr

/-- A choice record: its delta object, possibly absent. -/
structure Choice where
  delta : Option Delta := none
  deriving DecidableEq, Repr

/-- A usage-statistics record: a JSON object, modelled as an association
list of field names to integers. -/
def Usage := List (String × Int)
deriving DecidableEq, Repr

/-- Decoded structured payload of a stream line: optional response id
(absent, null, or string), a list of choices, and an optional usage
record. -/
structure ParsedData where
  id : Option (Option String) := none
  choices : List Choice := []
  usage : Option Usage := none
  deriving DecidableEq, Repr

/-- Outcome of extract_line_data on a raw line: None (termination
sentinel), a falsy value (blank, comment, unparsable), or a truthy decoded
payload. -/
inductive DecodeResult where
  | done
  | ignored
  | valid (d : ParsedData)
  deriving DecidableEq, Repr

/-- Per-stream mutable state of the handler: streaming_response_id,
streaming_texts, streaming_usage. -/
structure ExtractorState where
  streaming_response_id : Option String := none
  streaming_texts : List String := []
  streaming_usage : Option Usage := none
  deriving DecidableEq, Repr

/-- Python truthiness of the optional usage record: None and the empty
object are falsy. -/
def pyTruthyUsage (u : Option Usage) : Bool :=
  match u with
  | none => false
  | some l => !(List.isEmpty l)

/-- The delta of the first choice, with the Python defaults: choices[0] if
choices else the empty dict, then choice.get with an empty-dict default. -/
def firstDelta (d : ParsedData) : Delta :=
  ((d.choices.headD {}).delta).getD {}

/-- Body of add_streaming_line on a valid (truthy) decoded payload,
mirroring custom_response_handler.py lines 90-115: record the response id
first-write-wins, detect a token from the first choice delta, append the
fragment, overwrite the usage snapshot when the usage record is truthy. -/
def processValid (st : ExtractorState) (d : ParsedData) : ExtractorState × Signal :=
  let st1 :=
    if d.id.isSome && st.streaming_response_id.isNone
    then { st with streaming_response_id := pyGet d.id }
    else st
  let delta := firstDelta d
  let content := pyGet delta.content
  let reasoning := pyGet delta.reasoning_content
  let tokenDetected :=
    !(List.isEmpty d.choices) && (content.isSome || reasoning.isSome)
  let st2 :=
    if tokenDetected
    then { st1 with streaming_texts := st1.streaming_texts ++ [pyOrFragment content reasoning] }
    else st1
  let st3 :=
    if pyTruthyUsage d.usage
    then { st2 with streaming_usage := d.usage }
    else st2
  (st3, if tokenDetected then Signal.tokenArrived else Signal.noChange)

/-- add_streaming_line, as a function of the current state and the decode
outcome of the raw line: None decodes return None (done), other falsy
decodes return 0, valid payloads are processed. -/
def add_streaming_line (st : ExtractorState) (r : DecodeResult) : ExtractorState × Signal :=
  match r with
  | DecodeResult.done => (st, Signal.streamDone)
  | DecodeResult.ignored => (st, Signal.noChange)
  | DecodeResult.valid d => processValid st d

/-- State of the ServerBenchmarkerProgress sink (progress.py): whether the
aiohttp session is open, the timestamp of the last successful push, and
the last pushed progress value. -/
structure SinkState where
  sessionOpen : Bool
  last_update_ts : ℚ
  last_progress : ℚ
  deriving DecidableEq, Repr

/-- State produced by the constructor (progress.py lines 16-22): no
session, last update timestamp 0, last progress the sentinel -1. -/
def initSinkState : SinkState :=
  { sessionOpen := false, last_update_ts := 0, last_progress := -1 }

/-- Effect of handling the first lifecycle event (progress.py lines
24-31): open the session, leaving the throttle state untouched. -/
def openSession (st : SinkState) : SinkState :=
  { st with sessionOpen := true }

/-- Result of one _update_progress call: returned silently with no
session, dropped by the throttle, sent successfully, or a RuntimeError
raised after a failed HTTP push. -/
inductive UpdateResult where
  | noSession
  | dropped
  | sent
  | errorRaised
  deriving DecidableEq, Repr

/-- The throttle condition of _update_progress (progress.py lines 59-63),
in source order: one second elapsed, or progress at least 100, or progress
exceeding the last pushed value by at least 2. -/
def shouldUpdate (now ts last p : ℚ) : Bool :=
  decide (now - ts ≥ 1) || decide (p ≥ 100) || decide (p - last ≥ 2)

/-- Body of _update_progress (progress.py lines 54-77). The HTTP PATCH and
raise_for_status outcome is an external input httpOk; on success both
throttle fields are updated, on failure the except clause raises before
either assignment runs, leaving the state unchanged. -/
def update_progress (st : SinkState) (now p : ℚ) (httpOk : Bool) : SinkState × UpdateResult :=
  if !st.sessionOpen then (st, UpdateResult.noSession)
  else if !shouldUpdate now st.last_update_ts st.last_progress p then (st, UpdateResult.dropped)
  else if httpOk then
    ({ st with last_progress := p, last_update_ts := now }, UpdateResult.sent)
  else (st, UpdateResult.errorRaised)

/-- on_benchmark_start: push progress 0. -/
def on_benchmark_start (st : SinkState) (now : ℚ) (httpOk : Bool) : SinkState × UpdateResult :=
  update_progress st now 0 httpOk

/-- on_benchmark_update: push (1 - remaining_fraction) * 100 when the
remaining fraction is known, else 0. -/
def on_benchmark_update (st : SinkState) (now : ℚ) (remaining_fraction : Option ℚ)
    (httpOk : Bool) : SinkState × UpdateResult :=
  update_progress st now
    (match remaining_fraction with
     | some rf => (1 - rf) * 100
     | none => 0)
    httpOk

/-- on_benchmark_complete: push progress 100. -/
def on_benchmark_complete (st : SinkState) (now : ℚ) (httpOk : Bool) : SinkState × UpdateResult :=
  update_progress st now 100 httpOk

/-! Helper lemmas describing each field of the state after processValid. -/

/-- The signal returned by processValid: tokenArrived exactly when choices
is non-empty and one of the two delta fields is non-null-present. -/
lemma processValid_snd (st : ExtractorState) (d : ParsedData) :
    (processValid st d).2 =
      (if !(List.isEmpty d.choices)
          && ((pyGet (firstDelta d).content).isSome
              || (pyGet (firstDelta d).reasoning_content).isSome)
       then Signal.tokenArrived else Signal.noChange) := rfl

/-- The accumulated texts after processValid. -/
lemma processValid_texts (st : ExtractorState) (d : ParsedData) :
    (processValid st d).1.streaming_texts =
      (if !(List.isEmpty d.choices)
          && ((pyGet (firstDelta d).content).isSome
              || (pyGet (firstDelta d).reasoning_content).isSome)
       then st.streaming_texts
              ++ [pyOrFragment (pyGet (firstDelta d).content)
                    (pyGet (firstDelta d).reasoning_content)]
       else st.streaming_texts) := by
  simp only [processValid]
  split_ifs <;> rfl

/-- The stored response identifier after processValid. -/
lemma processValid_id (st : ExtractorState) (d : ParsedData) :
    (processValid st d).1.streaming_response_id =
      (if d.id.isSome && st.streaming_response_id.isNone
       then pyGet d.id else st.streaming_response_id) := by
  simp only [processValid]
  split_ifs <;> rfl

/-- The stored usage snapshot after processValid. -/
lemma processValid_usage (st : ExtractorState) (d : ParsedData) :
    (processValid st d).1.streaming_usage =
      (if pyTruthyUsage d.usage then d.usage else st.streaming_usage) := by
  simp only [processValid]
  split_ifs <;> rfl

/-- A truthy first operand of the Python or-chain wins. -/
lemma pyOrFragment_truthy_left {a b : Option String} (h : pyTruthyStr a = true) :
    pyOrFragment a b = a.getD "" := by
  simp [pyOrFragment, h]

/-- A falsy first operand of the Python or-chain defers to a truthy
second operand. -/
lemma pyOrFragment_falsy_left {a b : Option String}
    (ha : pyTruthyStr a = false) (hb : pyTruthyStr b = true) :
    pyOrFragment a b = b.getD "" := by
  simp [pyOrFragment, ha, hb]

/-- With both operands falsy the Python or-chain yields the empty
string. -/
lemma pyOrFragment_falsy_both {a b : Option String}
    (ha : pyTruthyStr a = false) (hb : pyTruthyStr b = false) :
    pyOrFragment a b = "" := by
  simp [pyOrFragment, ha, hb]

/-- A present non-empty string is Python-truthy. -/
lemma pyTruthyStr_some_ne {s : String} (h : s ≠ "") : pyTruthyStr (some s) = true := by
  simp [pyTruthyStr]
  exact h

/-- A non-empty list is not isEmpty. -/
lemma isEmpty_false_of_ne_nil {α : Type} {l : List α} (h : l ≠ []) :
    List.isEmpty l = false := by
  cases l with
  | nil => exact absurd rfl h
  | cons a t => rfl

/-- Payload whose single choice carries a delta with the content key
present but null, and no reasoning key. -/
def payloadNullContent : ParsedData :=
  { id := none,
    choices := [{ delta := some { content := some none, reasoning_content := none } }],
    usage := none }

/-- C1. Counterexample to the claim as stated: in payloadNullContent the
first choice delta carries the visible-content field as a present key
(with a null value), yet add_streaming_line returns NoChange, not
TokenArrived — the code tests non-null presence, not key presence. -/
theorem C1_counterexample :
    (firstDelta payloadNullContent).content.isSome = true
    ∧ (add_streaming_line {} (DecodeResult.valid payloadNullContent)).2 = Signal.noChange := by
  decide

/-- C1 (amended). For a valid payload with at least one choice, the signal
is TokenArrived iff the first choice delta carries visible content or
reasoning content as a present key with a non-null value (the empty string
counts); in particular content equal to the empty string with no reasoning
key yields TokenArrived with appended fragment the empty string. -/
theorem C1_token_iff_non_null_field (st : ExtractorState) (d : ParsedData)
    (h : d.choices ≠ []) :
    ((add_streaming_line st (DecodeResult.valid d)).2 = Signal.tokenArrived
      ↔ ((pyGet (firstDelta d).content).isSome = true
          ∨ (pyGet (firstDelta d).reasoning_content).isSome = true))
    ∧ ((firstDelta d).content = some (some "") → (firstDelta d).reasoning_content = none →
        (add_streaming_line st (DecodeResult.valid d)).2 = Signal.tokenArrived
        ∧ (add_streaming_line st (DecodeResult.valid d)).1.streaming_texts
            = st.streaming_texts ++ [""]) := by
  have hA : List.isEmpty d.choices = false := isEmpty_false_of_ne_nil h
  constructor
  · show (processValid st d).2 = Signal.tokenArrived ↔ _
    rw [processValid_snd, hA]
    cases hc : (pyGet (firstDelta d).content).isSome <;>
      cases hr : (pyGet (firstDelta d).reasoning_content).isSome <;> simp
  · intro hcont hreas
    have hc : pyGet (firstDelta d).content = some "" := by rw [hcont]; rfl
    have hr : pyGet (firstDelta d).reasoning_content = none := by rw [hreas]; rfl
    constructor
    · show (processValid st d).2 = Signal.tokenArrived
      rw [processValid_snd, hA, hc, hr]
      rfl
    · show (processValid st d).1.streaming_texts = _
      rw [processValid_texts, hA, hc, hr]
      rfl

/-- Payload whose single choice carries a delta with content equal to the
empty string and no reasoning key. -/
def payloadEmptyContentOnly : ParsedData :=
  { choices := [{ delta := some { content := some (some ""), reasoning_content := none } }] }

/-- Concrete instance discharging the hypotheses of
C1_token_iff_non_null_field: an empty-string content chunk counts as a
token arrival and appends the empty fragment. -/
theorem C1_token_iff_non_null_field_witness :
    (add_streaming_line {} (DecodeResult.valid payloadEmptyContentOnly)).2 = Signal.tokenArrived
    ∧ (add_streaming_line {} (DecodeResult.valid payloadEmptyContentOnly)).1.streaming_texts = [""] :=
  (C1_token_iff_non_null_field {} payloadEmptyContentOnly (by decide)).2 rfl rfl

/-- Payload whose single choice carries content equal to the empty string
together with reasoning content B. -/
def payloadEmptyContentWithReasoning : ParsedData :=
  { choices := [{ delta := some (Delta.mk (some (some "")) (some (some "B"))) }] }

/-- C5. Counterexample to the claim as stated: with visible content
present and non-null (the empty string) and reasoning content B, the
claim requires the appended fragment to be the visible-content value,
namely the empty string, but the code appends B — the source selects by
Python truthiness, not by presence. -/
theorem C5_counterexample :
    pyGet (firstDelta payloadEmptyContentWithReasoning).content = some ""
    ∧ (add_streaming_line {} (DecodeResult.valid payloadEmptyContentWithReasoning)).1.streaming_texts = ["B"]
    ∧ ("B" : String) ≠ "" := by
  decide

/-- C5 (amended). On a token-detecting line the appended fragment is the
visible-content value when it is present, non-null and non-empty; else
the reasoning-content value when that is present, non-null and non-empty;
else the empty string. -/
theorem C5_fragment_priority (st : ExtractorState) (d : ParsedData)
    (h : d.choices ≠ [])
    (hdet : (pyGet (firstDelta d).content).isSome = true
            ∨ (pyGet (firstDelta d).reasoning_content).isSome = true) :
    (∀ s : String, pyGet (firstDelta d).content = some s → s ≠ "" →
        (add_streaming_line st (DecodeResult.valid d)).1.streaming_texts
          = st.streaming_texts ++ [s])
    ∧ (pyTruthyStr (pyGet (firstDelta d).content) = false →
        ∀ t : String, pyGet (firstDelta d).reasoning_content = some t → t ≠ "" →
        (add_streaming_line st (DecodeResult.valid d)).1.streaming_texts
          = st.streaming_texts ++ [t])
    ∧ (pyTruthyStr (pyGet (firstDelta d).content) = false →
        pyTruthyStr (pyGet (firstDelta d).reasoning_content) = false →
        (add_streaming_line st (DecodeResult.valid d)).1.streaming_texts
          = st.streaming_texts ++ [""]) := by
  have hA : List.isEmpty d.choices = false := isEmpty_false_of_ne_nil h
  have htexts : (add_streaming_line st (DecodeResult.valid d)).1.streaming_texts
      = st.streaming_texts
          ++ [pyOrFragment (pyGet (firstDelta d).content)
                (pyGet (firstDelta d).reasoning_content)] := by
    show (processValid st d).1.streaming_texts = _
    rw [processValid_texts, hA]
    rcases hdet with hc | hr
    · rw [hc]; rfl
    · rw [hr, Bool.or_true]; rfl
  refine ⟨?_, ?_, ?_⟩
  · intro s hs hne
    rw [htexts, hs, pyOrFragment_truthy_left (pyTruthyStr_some_ne hne)]
    rfl
  · intro hcf t ht hne
    rw [htexts, ht, pyOrFragment_falsy_left hcf (pyTruthyStr_some_ne hne)]
    rfl
  · intro hcf hrf
    rw [htexts, pyOrFragment_falsy_both hcf hrf]

/-- Payload whose single choice carries content A and reasoning content B. -/
def payloadBothChannels : ParsedData :=
  { choices := [{ delta := some (Delta.mk (some (some "A")) (some (some "B"))) }] }

/-- Concrete instance discharging the hypotheses of C5_fragment_priority:
with content A and reasoning B both present, the appended fragment is A. -/
theorem C5_fragment_priority_witness :
    (add_streaming_line {} (DecodeResult.valid payloadBothChannels)).1.streaming_texts = ["A"] :=
  (C5_fragment_priority {} payloadBothChannels
      (by decide) (Or.inl rfl)).1 "A" rfl (by decide)

/-- C7. The stored response identifier is first-write-wins: while the
state has none, a valid line carrying a string identifier records it, and
once the state holds an identifier no line of any decode outcome ever
changes it. -/
theorem C7_id_first_write_wins :
    (∀ (st : ExtractorState) (d : ParsedData) (s : String),
        st.streaming_response_id = none → d.id = some (some s) →
        (add_streaming_line st (DecodeResult.valid d)).1.streaming_response_id = some s)
    ∧ (∀ (st : ExtractorState) (r : DecodeResult) (s : String),
        st.streaming_response_id = some s →
        (add_streaming_line st r).1.streaming_response_id = some s) := by
  constructor
  · intro st d s hst hd
    show (processValid st d).1.streaming_response_id = some s
    rw [processValid_id, hd, hst]
    rfl
  · intro st r s hst
    cases r with
    | done => exact hst
    | ignored => exact hst
    | valid d =>
      show (processValid st d).1.streaming_response_id = some s
      rw [processValid_id, hst]
      cases hd : d.id.isSome <;> rfl

/-- Concrete instance discharging the hypotheses of
C7_id_first_write_wins: the first identifier is recorded and a later
different identifier is ignored. -/
theorem C7_id_first_write_wins_witness :
    (add_streaming_line {} (DecodeResult.valid { id := some (some "a") })).1.streaming_response_id
      = some "a"
    ∧ (add_streaming_line { streaming_response_id := some "a" }
        (DecodeResult.valid { id := some (some "b") })).1.streaming_response_id = some "a" :=
  ⟨C7_id_first_write_wins.1 {} { id := some (some "a") } "a" rfl rfl,
   C7_id_first_write_wins.2 { streaming_response_id := some "a" }
     (DecodeResult.valid { id := some (some "b") }) "a" rfl⟩

/-- Payload with no choices and a present but empty usage record. -/
def payloadEmptyUsage : ParsedData :=
  { choices := [], usage := some [] }

/-- C8. Counterexample to the claim as stated: a valid line carrying a
present (empty) usage record does not overwrite the stored snapshot — the
source stores the record only when it is Python-truthy, so an empty
record is dropped. -/
theorem C8_counterexample :
    payloadEmptyUsage.usage = some ([] : Usage)
    ∧ (add_streaming_line { streaming_usage := some [("prompt_tokens", 5)] }
        (DecodeResult.valid payloadEmptyUsage)).1.streaming_usage
      = some [("prompt_tokens", 5)]
    ∧ some ([] : Usage) ≠ some [(("prompt_tokens" : String), (5 : Int))] := by
  refine ⟨rfl, rfl, by decide⟩

/-- C8 (amended). A valid line carrying a non-empty usage record
overwrites the stored snapshot, independently of token detection; with no
choices the signal is still NoChange while the snapshot is updated. -/
theorem C8_usage_overwrite (st : ExtractorState) (d : ParsedData) (u : Usage)
    (hu : d.usage = some u) (hne : u ≠ []) :
    (add_streaming_line st (DecodeResult.valid d)).1.streaming_usage = some u
    ∧ (d.choices = [] →
        (add_streaming_line st (DecodeResult.valid d)).2 = Signal.noChange) := by
  have htruthy : pyTruthyUsage d.usage = true := by
    rw [hu]
    unfold pyTruthyUsage
    cases u with
    | nil => exact absurd rfl hne
    | cons a t => rfl
  constructor
  · show (processValid st d).1.streaming_usage = some u
    rw [processValid_usage, htruthy, hu]
    rfl
  · intro hch
    show (processValid st d).2 = Signal.noChange
    rw [processValid_snd, hch]
    rfl

/-- Concrete instance discharging the hypotheses of C8_usage_overwrite. -/
theorem C8_usage_overwrite_witness :
    (add_streaming_line {} (DecodeResult.valid
      { choices := [], usage := some [("completion_tokens", 7)] })).1.streaming_usage
      = some [("completion_tokens", 7)]
    ∧ (add_streaming_line {} (DecodeResult.valid
      { choices := [], usage := some [("completion_tokens", 7)] })).2 = Signal.noChange := by
  have h := C8_usage_overwrite {}
    { choices := [], usage := some [("completion_tokens", 7)] }
    [("completion_tokens", 7)] rfl (by decide)
  exact ⟨h.1, h.2 rfl⟩

/-- The throttle condition as a proposition. -/
lemma shouldUpdate_iff (now ts last p : ℚ) :
    shouldUpdate now ts last p = true ↔ (now - ts ≥ 1 ∨ p ≥ 100 ∨ p - last ≥ 2) := by
  unfold shouldUpdate
  simp [or_assoc]

/-- The throttle condition, negated. -/
lemma shouldUpdate_eq_false_iff (now ts last p : ℚ) :
    shouldUpdate now ts last p = false ↔ ¬ (now - ts ≥ 1 ∨ p ≥ 100 ∨ p - last ≥ 2) := by
  rw [← shouldUpdate_iff]
  cases shouldUpdate now ts last p <;> simp

/-- C3. Counterexample to the claim as stated: over an open session with
last push value 10 at time 0, a push at time one half with value 8
differs from the last sent value by 2 percentage points (a decrease), so
the claim requires it to be sent, but the code drops it — the delta gate
in the source is one-sided, testing only increases. -/
theorem C3_counterexample :
    ((10 : ℚ) - 8 ≥ 2)
    ∧ ¬ ((1 : ℚ) / 2 - 0 ≥ 1)
    ∧ ¬ ((8 : ℚ) ≥ 100)
    ∧ (update_progress { sessionOpen := true, last_update_ts := 0, last_progress := 10 }
        (1 / 2) 8 true).2 = UpdateResult.dropped := by
  refine ⟨by norm_num, by norm_num, by norm_num, ?_⟩
  have hq : shouldUpdate (1 / 2) 0 10 8 = false := by
    rw [shouldUpdate_eq_false_iff]
    push_neg
    norm_num
  unfold update_progress
  rw [hq]
  rfl

/-- C3 (amended). Over an open session, a non-completion push with a
successful transport is sent iff at least 1 second has elapsed since the
last successful push, or the new value exceeds the last sent value by at
least 2 percentage points (increases only), or the new value is at least
100; otherwise it is dropped. -/
theorem C3_throttle_gate (ts last now p : ℚ) :
    ((update_progress { sessionOpen := true, last_update_ts := ts, last_progress := last }
        now p true).2 = UpdateResult.sent
      ↔ (now - ts ≥ 1 ∨ p - last ≥ 2 ∨ p ≥ 100))
    ∧ ((update_progress { sessionOpen := true, last_update_ts := ts, last_progress := last }
        now p true).2 = UpdateResult.dropped
      ↔ ¬ (now - ts ≥ 1 ∨ p - last ≥ 2 ∨ p ≥ 100)) := by
  have hgate : shouldUpdate now ts last p = true ↔ (now - ts ≥ 1 ∨ p - last ≥ 2 ∨ p ≥ 100) := by
    rw [shouldUpdate_iff]
    tauto
  constructor
  · rw [← hgate]
    unfold update_progress
    cases hs : shouldUpdate now ts last p <;> simp [hs]
  · rw [← hgate]
    unfold update_progress
    cases hs : shouldUpdate now ts last p <;> simp [hs]

/-- Concrete instance of C3_throttle_gate matching the worked examples of
the claim: value 13 at time one half is sent, value 11 at time one half
is dropped. -/
theorem C3_throttle_gate_witness :
    (update_progress { sessionOpen := true, last_update_ts := 0, last_progress := 10 }
        (1 / 2) 13 true).2 = UpdateResult.sent
    ∧ (update_progress { sessionOpen := true, last_update_ts := 0, last_progress := 10 }
        (1 / 2) 11 true).2 = UpdateResult.dropped :=
  ⟨(C3_throttle_gate 0 10 (1 / 2) 13).1.mpr (Or.inr (Or.inl (by norm_num))),
   (C3_throttle_gate 0 10 (1 / 2) 11).2.mpr (by norm_num)⟩

/-- C4. Over an open session, once a push qualifies under the throttle: a
successful transport updates both the last-sent timestamp and the
last-sent value; a failed transport raises a single error and leaves the
state exactly as it was, so the next attempt is judged against the prior
successful state. -/
theorem C4_push_state_update (st : SinkState) (now p : ℚ)
    (hopen : st.sessionOpen = true)
    (hq : shouldUpdate now st.last_update_ts st.last_progress p = true) :
    update_progress st now p true
      = ({ st with last_progress := p, last_update_ts := now }, UpdateResult.sent)
    ∧ update_progress st now p false = (st, UpdateResult.errorRaised) := by
  unfold update_progress
  rw [hopen, hq]
  exact ⟨rfl, rfl⟩

/-- Concrete instance discharging the hypotheses of C4_push_state_update. -/
theorem C4_push_state_update_witness :
    update_progress { sessionOpen := true, last_update_ts := 0, last_progress := 10 } 5 50 true
      = ({ sessionOpen := true, last_update_ts := 5, last_progress := 50 }, UpdateResult.sent)
    ∧ update_progress { sessionOpen := true, last_update_ts := 0, last_progress := 10 } 5 50 false
      = ({ sessionOpen := true, last_update_ts := 0, last_progress := 10 }, UpdateResult.errorRaised) :=
  C4_push_state_update { sessionOpen := true, last_update_ts := 0, last_progress := 10 }
    5 50 rfl
    (by show shouldUpdate 5 0 10 50 = true
        rw [shouldUpdate_iff]
        norm_num)

/-- C6. Over an open session, a BenchmarkComplete event always attempts
the progress-100 push whatever the last timestamp and value are — the
push is never dropped by the throttle — and with a successful transport
the stored last-sent value becomes 100. -/
theorem C6_completion_bypasses_throttle (ts last now : ℚ) (ok : Bool) :
    (on_benchmark_complete { sessionOpen := true, last_update_ts := ts, last_progress := last }
        now ok).2 ≠ UpdateResult.dropped
    ∧ (on_benchmark_complete { sessionOpen := true, last_update_ts := ts, last_progress := last }
        now ok).2 ≠ UpdateResult.noSession
    ∧ (ok = true →
        (on_benchmark_complete { sessionOpen := true, last_update_ts := ts, last_progress := last }
            now ok).2 = UpdateResult.sent
        ∧ (on_benchmark_complete { sessionOpen := true, last_update_ts := ts, last_progress := last }
            now ok).1.last_progress = 100) := by
  have hq : shouldUpdate now ts last 100 = true := by
    unfold shouldUpdate
    simp
  unfold on_benchmark_complete update_progress
  dsimp only
  rw [hq]
  cases ok with
  | true => exact ⟨by simp, by simp, fun _ => ⟨rfl, rfl⟩⟩
  | false => exact ⟨by simp, by simp, fun h => by cases h⟩

/-- Concrete instance discharging the hypothesis of
C6_completion_bypasses_throttle: a completion push immediately after a
push of value 99 is still sent. -/
theorem C6_completion_bypasses_throttle_witness :
    (on_benchmark_complete { sessionOpen := true, last_update_ts := 7, last_progress := 99 }
        7 true).2 = UpdateResult.sent :=
  ((C6_completion_bypasses_throttle 7 99 7 true).2.2 rfl).1

/-- C9. In the state produced by the constructor and the session-opening
event, the last-sent value is the sentinel -1, lower than any valid
progress, and for any wall-clock time of at least one second the very
first push qualifies under the throttle for every progress value between
0 and 100. -/
theorem C9_first_push_qualifies (now p : ℚ)
    (hnow : 1 ≤ now) (h0 : 0 ≤ p) (h100 : p ≤ 100) :
    initSinkState.last_progress < 0
    ∧ initSinkState.last_progress < p
    ∧ (update_progress (openSession initSinkState) now p true).2 = UpdateResult.sent := by
  refine ⟨by norm_num [initSinkState], by simp [initSinkState]; linarith, ?_⟩
  have hq : shouldUpdate now 0 (-1) p = true := by
    rw [shouldUpdate_iff]
    exact Or.inl (by linarith)
  show (update_progress { sessionOpen := true, last_update_ts := 0, last_progress := -1 }
      now p true).2 = UpdateResult.sent
  unfold update_progress
  rw [hq]
  rfl

/-- Concrete instance discharging the hypotheses of
C9_first_push_qualifies at progress 0. -/
theorem C9_first_push_qualifies_witness :
    (update_progress (openSession initSinkState) 2 0 true).2 = UpdateResult.sent :=
  (C9_first_push_qualifies 2 0 (by norm_num) le_rfl (by norm_num)).2.2

/-- C10. With no session open, every push attempt — from BenchmarkStart,
BenchmarkUpdate or BenchmarkComplete — returns the silent no-session
outcome and leaves the throttle state untouched. -/
theorem C10_no_session_noop (ts last now p : ℚ) (rf : Option ℚ) (ok : Bool) :
    update_progress { sessionOpen := false, last_update_ts := ts, last_progress := last } now p ok
      = ({ sessionOpen := false, last_update_ts := ts, last_progress := last },
         UpdateResult.noSession)
    ∧ on_benchmark_start { sessionOpen := false, last_update_ts := ts, last_progress := last } now ok
      = ({ sessionOpen := false, last_update_ts := ts, last_progress := last },
         UpdateResult.noSession)
    ∧ on_benchmark_update { sessionOpen := false, last_update_ts := ts, last_progress := last }
        now rf ok
      = ({ sessionOpen := false, last_update_ts := ts, last_progress := last },
         UpdateResult.noSession)
    ∧ on_benchmark_complete { sessionOpen := false, last_update_ts := ts, last_progress := last }
        now ok
      = ({ sessionOpen := false, last_update_ts := ts, last_progress := last },
         UpdateResult.noSession) :=
  ⟨rfl, rfl, rfl, rfl⟩

end BenchmarkRunner
